import Mathlib

/-!
Shallow embedding of the MCP Streamable-HTTP server
(`server/src/server.ts` = `MCPServer`, `server/src/index.ts` = wiring).

The server keeps a mutable map `transports : sessionId -> transport`.
A POST either reuses the transport registered under the request's
`mcp-session-id` header, creates a fresh transport when there is no
session header and the body is an initialize request, or answers 400
with a fixed JSON-RPC error envelope.  A GET answers 400 unless the
header names a registered session, and otherwise hands the request to
that session's transport and streams one logging notification.

Modelling conventions:
  * A transport object is identified by a numeric id (`Nat`), allocated
    by a counter; "routed to the same transport object" means the
    outcome carries the same numeric id.
  * `randomUUID()` is nondeterministic at the source level; every call
    site receives the generated token as an explicit argument.
  * The SDK's `StreamableHTTPServerTransport` in stateful mode assigns
    the id produced by `sessionIdGenerator` to `transport.sessionId`
    while handling the first (initialize) request; the embedding passes
    that generated id straight through.
  * JavaScript truthiness of the header value (`undefined` and `""` are
    both falsy) is embedded by `truthy`.
-/

/-- JSON-RPC error object, the `error` field of an error envelope. -/
structure ErrorObj where
  code : Int
  message : String
deriving DecidableEq, Repr

/-- JSON-RPC error envelope, as built by `MCPServer.createErrorResponse`. -/
structure JSONRPCError where
  jsonrpc : String
  error : ErrorObj
  id : String
deriving DecidableEq, Repr

/-- Logging-notification parameters (`params` of a `LoggingMessageNotification`). -/
structure LogParams where
  level : String
  data : String
deriving DecidableEq, Repr

/-- A notification before the `jsonrpc` tag is stamped (SDK `Notification`). -/
structure PlainNote where
  method : String
  params : LogParams
deriving DecidableEq, Repr

/-- A JSON-RPC notification as sent on the wire (SDK `JSONRPCNotification`). -/
structure JSONRPCNotification where
  jsonrpc : String
  method : String
  params : LogParams
deriving DecidableEq, Repr

/-- The request body: either a JSON array (batch) or a single JSON value.
The element type is abstract; only the SDK predicate
`InitializeRequestSchema.safeParse(·).success` (passed as a function) inspects it. -/
inductive Body (α : Type) where
  | arr (elems : List α)
  | single (data : α)
deriving DecidableEq, Repr

/-- State of `MCPServer` (plus the underlying SDK `Server`):
`transports` is the session map (association list in JS-object insertion
order), `nextTid` the allocator for transport identities, `bound` the
transport currently connected to the SDK `Server` (rebound on each
`server.connect`), `closedTids` the transports that have been closed. -/
structure ServerState where
  transports : List (String × Nat)
  nextTid : Nat
  bound : Option Nat
  closedTids : List Nat
deriving DecidableEq, Repr

/-- JavaScript truthiness of the `mcp-session-id` header value:
an absent header (`undefined`) and the empty string are falsy. -/
def truthy : Option String → Bool
  | some s => s ≠ ""
  | none => false

/-- `MCPServer.createErrorResponse(message)`: the fixed error envelope;
`uuid` is the token produced by the `randomUUID()` call in its body. -/
def createErrorResponse (message uuid : String) : JSONRPCError :=
  { jsonrpc := "2.0", error := { code := -32000, message := message }, id := uuid }

/-- The message text of the 400 branches of both HTTP handlers. -/
def badRequestMsg : String := "Bad Request: invalid session ID or method."

/-- `MCPServer.isInitializeRequest(body)`: on an array, true when some
element parses as an initialize request; otherwise parse the body itself.
`initOk` stands for `(data) => InitializeRequestSchema.safeParse(data).success`. -/
def isInitializeRequest {α : Type} (initOk : α → Bool) : Body α → Bool
  | .arr elems => elems.any initOk
  | .single data => initOk data

/-- The notification built in `MCPServer.streamMessages`. -/
def logMessage : PlainNote :=
  { method := "notifications/message"
  , params := { level := "info", data := "SSE Connection established" } }

/-- `MCPServer.sendNotification`: spread the notification and stamp
`jsonrpc: "2.0"` (the `JSON_RPC` constant). -/
def sendNotification (n : PlainNote) : JSONRPCNotification :=
  { jsonrpc := "2.0", method := n.method, params := n.params }

/-- `MCPServer.streamMessages(transport)`: the notifications it pushes on
the transport — exactly one, the connection-established info message. -/
def streamMessages : List JSONRPCNotification :=
  [sendNotification logMessage]

/-- JS object update `obj[k] = v`: replace the value in place when the key
is present, otherwise append the binding (JS string-key insertion order). -/
def setKey : List (String × Nat) → String → Nat → List (String × Nat)
  | [], k, v => [(k, v)]
  | p :: l, k, v => if p.1 = k then (k, v) :: l else p :: setKey l k v

/-- Lookup of the header value in the session map, guarded by JS truthiness:
the JS conditions read `sessionId && this.transports[sessionId]`. -/
def sidLookup (st : ServerState) (sessionId : Option String) : Option Nat :=
  if truthy sessionId then
    match sessionId with
    | some s => st.transports.lookup s
    | none => none
  else none

/-- Outcome of `MCPServer.handlePostRequest` as observed by the client. -/
inductive PostOutcome where
  | handled (tid : Nat)
  | created (sid : String) (tid : Nat)
  | error (status : Nat) (body : JSONRPCError)
deriving DecidableEq, Repr

/-- Outcome of `MCPServer.handleGetRequest` as observed by the client. -/
inductive GetOutcome where
  | stream (tid : Nat) (notes : List JSONRPCNotification)
  | error (status : Nat) (body : JSONRPCError)
deriving DecidableEq, Repr

/-- `MCPServer.handlePostRequest(req, res)`.
`freshUuid` is the token that `sessionIdGenerator` (=`randomUUID`) yields
for a newly created transport; `errId` is the token `randomUUID` yields
inside `createErrorResponse` on the 400 branch.  Branches in source order:
reuse a registered transport; create, connect and register a new transport
on an initialize request without session header; otherwise 400. -/
def handlePostRequest {α : Type} (initOk : α → Bool) (freshUuid errId : String)
    (st : ServerState) (sessionId : Option String) (body : Body α) :
    ServerState × PostOutcome :=
  match sidLookup st sessionId with
  | some tid => (st, .handled tid)
  | none =>
    if !truthy sessionId && isInitializeRequest initOk body then
      let tid := st.nextTid
      ({ st with
          transports := setKey st.transports freshUuid tid
        , nextTid := st.nextTid + 1
        , bound := some tid },
       .created freshUuid tid)
    else
      (st, .error 400 (createErrorResponse badRequestMsg errId))

/-- `MCPServer.handleGetRequest(req, res)`: 400 unless the header names a
registered session; otherwise `transport.handleRequest` opens the SSE
stream and `streamMessages` pushes the info notification on it. -/
def handleGetRequest (errId : String) (st : ServerState)
    (sessionId : Option String) : ServerState × GetOutcome :=
  match sidLookup st sessionId with
  | none => (st, .error 400 (createErrorResponse badRequestMsg errId))
  | some tid => (st, .stream tid streamMessages)

/-- Close a transport id: the SDK's `close()` on an already-closed
transport is a no-op, so the record of closed transports is a set. -/
def closeTid (closed : List Nat) (t : Nat) : List Nat :=
  if t ∈ closed then closed else t :: closed

/-- `MCPServer.cleanup()` (run by the SIGINT handler in `index.ts` before
`process.exit`): clears the tool interval (never armed in this code) and
calls `server.close()`, which closes and detaches only the transport
currently connected to the SDK `Server`.  The `transports` map is not
consulted. -/
def cleanup (st : ServerState) : ServerState :=
  { st with
      closedTids := match st.bound with
        | some t => closeTid st.closedTids t
        | none => st.closedTids
    , bound := none }

/-- Result content of a successful tool call (never produced here: the
core registers zero tools, so the handler always throws). -/
structure ToolResult where
  content : List String
deriving DecidableEq, Repr

/-- The tool list the `ListToolsRequestSchema` handler returns in
`MCPServer.setupTools`: the empty list — no tool is registered. -/
def listedTools : List String := []

/-- The `CallToolRequestSchema` handler in `MCPServer.setupTools`.
`args` is `request.params.arguments` (absent = `undefined`), `toolName`
is `request.params.name` (`!toolName` is true exactly for the empty
string).  Each `throw new Error(...)` becomes `Except.error` with the
thrown message: the SDK protocol layer catches the throw and answers the
single requesting client with an error envelope, so the serving loop
survives. -/
def callToolHandler {β : Type} (args : Option β) (toolName : String) :
    Except String ToolResult :=
  if args.isNone then .error "arguments undefined"
  else if toolName = "" then .error "tool name undefined"
  else .error "Tool not found"

/-- Push-channel state of a session transport
(spec state machine: Unopened → Open → Closed). -/
inductive PushState where
  | unopened
  | opened
  | closed
deriving DecidableEq, Repr

/-- Failure of opening a push channel that is already open. -/
inductive OpenError where
  | AlreadyOpen
deriving DecidableEq, Repr

/-- Modelled from the spec: `openPush()` of the Session Transport, whose
channel bookkeeping lives inside the SDK's `StreamableHTTPServerTransport`
and is not part of this repository's sources.  Per the spec it fails with
`AlreadyOpen` when a push channel already exists and otherwise opens the
channel, immediately emitting the informational handshake notification —
the one `streamMessages` builds — before anything else is sent. -/
def openPush (s : PushState) :
    Except OpenError (PushState × List JSONRPCNotification) :=
  match s with
  | .opened => .error .AlreadyOpen
  | _ => .ok (.opened, streamMessages)

/-- Modelled from the spec: `remove(id)` of the Session Registry; the
repository's sources never delete from `transports`, so the operation
exists only in the spec.  It drops the binding for `sid`, and removing
an absent id is a no-op. -/
def removeSession (sid : String) (st : ServerState) : ServerState :=
  { st with transports := st.transports.filter (fun p => p.1 ≠ sid) }

/-- Modelled from the spec: `makeError(message, id?)` of the Envelope
Codec; the source's `createErrorResponse` takes no id argument, so the
optional-id form exists only in the spec.  The id defaults to the freshly
generated token `uuid` when the caller supplies none. -/
def makeError (message : String) (idTok : Option String) (uuid : String) :
    JSONRPCError :=
  { jsonrpc := "2.0"
  , error := { code := -32000, message := message }
  , id := idTok.getD uuid }

/-! Helper lemmas about the association-list operations. -/

/-- After a JS-style update, looking the key up yields the new value. -/
theorem lookup_setKey_self (l : List (String × Nat)) (k : String) (v : Nat) :
    (setKey l k v).lookup k = some v := by
  induction l with
  | nil => simp [setKey, List.lookup]
  | cons p l ih =>
    obtain ⟨a, b⟩ := p
    by_cases h : a = k
    · simp [setKey, h, List.lookup]
    · have hba : (k == a) = false := beq_eq_false_iff_ne.mpr fun hh => h hh.symm
      simp [setKey, h, List.lookup, hba, ih]

/-- Updating at a key absent from the map appends the binding. -/
theorem setKey_not_mem (l : List (String × Nat)) (k : String) (v : Nat)
    (h : k ∉ l.map Prod.fst) : setKey l k v = l ++ [(k, v)] := by
  induction l with
  | nil => rfl
  | cons p l ih =>
    simp only [List.map_cons, List.mem_cons, not_or] at h
    obtain ⟨h1, h2⟩ := h
    have hpk : ¬ p.1 = k := fun hh => h1 hh.symm
    simp [setKey, hpk, ih h2]

/-- A key whose lookup fails occurs nowhere, so filtering it out is a no-op. -/
theorem filter_ne_of_lookup_none (l : List (String × Nat)) (k : String)
    (h : l.lookup k = none) : l.filter (fun p => p.1 ≠ k) = l := by
  induction l with
  | nil => rfl
  | cons p l ih =>
    obtain ⟨a, b⟩ := p
    by_cases hak : k = a
    · simp [List.lookup, hak] at h
    · have hba : (k == a) = false := beq_eq_false_iff_ne.mpr hak
      simp only [List.lookup, hba] at h
      have hka : ¬ a = k := fun hh => hak hh.symm
      have tail := ih h
      simp only [List.filter_cons]
      rw [if_pos (by simp [hka]), tail]

/-- Filtering twice with the same predicate filters once. -/
theorem filter_self_idem {γ : Type} (f : γ → Bool) (l : List γ) :
    (l.filter f).filter f = l.filter f := by
  induction l with
  | nil => rfl
  | cons a l ih =>
    by_cases h : f a = true
    · simp [List.filter_cons, h, ih]
    · simp [List.filter_cons, h, ih]

/-- Membership in the closed-transport set after closing one transport. -/
theorem mem_closeTid (closed : List Nat) (b t : Nat) :
    t ∈ closeTid closed b ↔ t ∈ closed ∨ t = b := by
  by_cases h : b ∈ closed
  · constructor
    · intro ht
      simp only [closeTid, if_pos h] at ht
      exact Or.inl ht
    · intro ht
      simp only [closeTid, if_pos h]
      rcases ht with ht | rfl
      · exact ht
      · exact h
  · simp only [closeTid, if_neg h, List.mem_cons]
    tauto

/-! Claim theorems. -/

/-- Claim C6: `isInitializeRequest` holds of an array body exactly when
some element parses as an initialize request, and of a non-array body
exactly when the body itself does. -/
theorem C6_isInitializeRequest_spec {α : Type} (initOk : α → Bool)
    (elems : List α) (data : α) :
    (isInitializeRequest initOk (Body.arr elems) = true
      ↔ ∃ x ∈ elems, initOk x = true)
    ∧ (isInitializeRequest initOk (Body.single data) = true
      ↔ initOk data = true) := by
  constructor
  · simp [isInitializeRequest, List.any_eq_true]
  · simp [isInitializeRequest]

/-- Claim C5: every error envelope the server constructs carries the
`"2.0"` tag, code `-32000` and the supplied message; `createErrorResponse`
uses the freshly generated token as id, which is exactly the spec-level
`makeError` with no correlated id, and `makeError` with a caller-supplied
id uses that id instead. -/
theorem C5_error_envelope_shape (message uuid idTok : String) :
    createErrorResponse message uuid
        = { jsonrpc := "2.0"
          , error := { code := -32000, message := message }
          , id := uuid }
    ∧ makeError message none uuid = createErrorResponse message uuid
    ∧ makeError message (some idTok) uuid
        = { jsonrpc := "2.0"
          , error := { code := -32000, message := message }
          , id := idTok } :=
  ⟨rfl, rfl, rfl⟩

/-- Claim C10: the GET handler never modifies the server state — in
particular the `transports` registry is identical before and after the
call, whether it answers 400 or opens the stream. -/
theorem C10_get_preserves_registry (errId : String) (st : ServerState)
    (sessionId : Option String) :
    (handleGetRequest errId st sessionId).1 = st := by
  unfold handleGetRequest
  cases sidLookup st sessionId <;> rfl

/-- Claim C3: opening the push channel when one is already open fails
with `AlreadyOpen`; opening it on an unopened session succeeds and emits
exactly one notification, of the exact informational shape, so it precedes
any tool-originated notification on the channel; and on the real GET path
a registered session gets exactly that stream. -/
theorem C3_push_channel_once :
    openPush PushState.opened = Except.error OpenError.AlreadyOpen
    ∧ openPush PushState.unopened
        = Except.ok (PushState.opened,
            [{ jsonrpc := "2.0", method := "notifications/message"
             , params := { level := "info"
                         , data := "SSE Connection established" } }])
    ∧ handleGetRequest "e" ⟨[("s", 0)], 1, some 0, []⟩ (some "s")
        = (⟨[("s", 0)], 1, some 0, []⟩,
           GetOutcome.stream 0
             [{ jsonrpc := "2.0", method := "notifications/message"
              , params := { level := "info"
                          , data := "SSE Connection established" } }]) :=
  ⟨rfl, rfl, rfl⟩

/-- Claim C4: tool dispatch with absent `arguments` fails with the
`arguments undefined` error, dispatch of a name not in the (empty)
registered-tool list fails with `Tool not found`, and in every case the
handler returns a typed error to the requesting client instead of
crashing. -/
theorem C4_dispatch_failures {β : Type} (args : Option β) (toolName : String) :
    (args = none → callToolHandler args toolName = .error "arguments undefined")
    ∧ (args.isSome = true → toolName ≠ "" → toolName ∉ listedTools →
        callToolHandler args toolName = .error "Tool not found")
    ∧ ∃ msg, callToolHandler args toolName = Except.error msg := by
  refine ⟨?_, ?_, ?_⟩
  · intro h
    simp [callToolHandler, h]
  · intro hsome hname _
    have : args.isNone = false := by
      cases args <;> simp_all
    simp [callToolHandler, this, hname]
  · cases args with
    | none => exact ⟨"arguments undefined", by simp [callToolHandler]⟩
    | some a =>
      by_cases h : toolName = ""
      · exact ⟨"tool name undefined", by simp [callToolHandler, h]⟩
      · exact ⟨"Tool not found", by simp [callToolHandler, h]⟩

/-- Witness for C4 at concrete inputs: absent arguments, then an
unregistered tool name with arguments supplied. -/
theorem C4_dispatch_failures_witness :
    (callToolHandler (none : Option Nat) "getWeather"
        = .error "arguments undefined")
    ∧ (callToolHandler (some (0 : Nat)) "getWeather"
        = .error "Tool not found") :=
  ⟨(C4_dispatch_failures none "getWeather").1 rfl,
   (C4_dispatch_failures (some 0) "getWeather").2.1 rfl
     (by decide) (by simp [listedTools])⟩

/-- Claim C1: a POST without session header whose body is an initialize
request creates a session: the outcome returns the freshly generated id
together with the new transport, the registry maps that id to that
transport, and as long as that binding is in place every subsequent POST
or GET carrying the id is routed to the same transport. -/
theorem C1_initialize_creates_and_routes {α : Type} (initOk : α → Bool)
    (freshUuid errId : String) (st : ServerState) (body : Body α)
    (hfresh : freshUuid ≠ "")
    (hinit : isInitializeRequest initOk body = true) :
    (handlePostRequest initOk freshUuid errId st none body).2
        = PostOutcome.created freshUuid st.nextTid
    ∧ ((handlePostRequest initOk freshUuid errId st none body).1).transports.lookup
        freshUuid = some st.nextTid
    ∧ ∀ st1 : ServerState,
        st1.transports.lookup freshUuid = some st.nextTid →
        (∀ (body' : Body α) (f e : String),
            handlePostRequest initOk f e st1 (some freshUuid) body'
              = (st1, PostOutcome.handled st.nextTid))
        ∧ ∀ e : String,
            handleGetRequest e st1 (some freshUuid)
              = (st1, GetOutcome.stream st.nextTid streamMessages) := by
  refine ⟨?_, ?_, fun st1 hlook => ⟨fun body' f e => ?_, fun e => ?_⟩⟩
  · simp [handlePostRequest, sidLookup, truthy, hinit]
  · simp [handlePostRequest, sidLookup, truthy, hinit, lookup_setKey_self]
  · simp [handlePostRequest, sidLookup, truthy, hfresh, hlook]
  · simp [handleGetRequest, sidLookup, truthy, hfresh, hlook]

/-- Witness for C1: from the empty server state, an initialize body with
no session header yields a created session with the generated id. -/
theorem C1_initialize_creates_and_routes_witness :
    ("abc123" : String) ≠ ""
    ∧ isInitializeRequest (fun b : Bool => b) (Body.single true) = true
    ∧ (handlePostRequest (fun b : Bool => b) "abc123" "e0"
        (ServerState.mk [] 0 none []) none (Body.single true)).2
        = PostOutcome.created "abc123" 0 :=
  ⟨by decide, by decide,
   (C1_initialize_creates_and_routes (fun b : Bool => b) "abc123" "e0"
      (ServerState.mk [] 0 none []) (Body.single true)
      (by decide) (by decide)).1⟩

/-- Claim C2: a request with an unknown (non-empty) session id, or with no
session id and a non-initialize body, is answered with status 400 and the
exact JSON-RPC error envelope with code -32000 and the fixed message, on
both the POST and the GET path, with the registry left unchanged. -/
theorem C2_bad_request_envelope {α : Type} (initOk : α → Bool)
    (freshUuid errId : String) (st : ServerState) (sessionId : Option String)
    (body : Body α)
    (h : (∃ s, sessionId = some s ∧ s ≠ "" ∧ st.transports.lookup s = none)
        ∨ (sessionId = none ∧ isInitializeRequest initOk body = false)) :
    handlePostRequest initOk freshUuid errId st sessionId body
        = (st, PostOutcome.error 400
            { jsonrpc := "2.0"
            , error := { code := -32000
                       , message := "Bad Request: invalid session ID or method." }
            , id := errId })
    ∧ handleGetRequest errId st sessionId
        = (st, GetOutcome.error 400
            { jsonrpc := "2.0"
            , error := { code := -32000
                       , message := "Bad Request: invalid session ID or method." }
            , id := errId }) := by
  rcases h with ⟨s, rfl, hs, hnone⟩ | ⟨rfl, hinit⟩
  · constructor
    · simp [handlePostRequest, sidLookup, truthy, hs, hnone,
        createErrorResponse, badRequestMsg]
    · simp [handleGetRequest, sidLookup, truthy, hs, hnone,
        createErrorResponse, badRequestMsg]
  · constructor
    · simp [handlePostRequest, sidLookup, truthy, hinit,
        createErrorResponse, badRequestMsg]
    · simp [handleGetRequest, sidLookup, truthy,
        createErrorResponse, badRequestMsg]

/-- Witness for C2: an unknown session id against the empty registry. -/
theorem C2_bad_request_envelope_witness :
    handlePostRequest (fun b : Bool => b) "f0" "e0"
        (ServerState.mk [] 0 none []) (some "nope") (Body.single true)
        = (ServerState.mk [] 0 none [], PostOutcome.error 400
            { jsonrpc := "2.0"
            , error := { code := -32000
                       , message := "Bad Request: invalid session ID or method." }
            , id := "e0" }) :=
  (C2_bad_request_envelope (fun b : Bool => b) "f0" "e0"
    (ServerState.mk [] 0 none []) (some "nope") (Body.single true)
    (Or.inl ⟨"nope", rfl, by decide, by decide⟩)).1

/-- Claim C8: creating a session under a fresh id never overwrites an
existing registry entry — the new binding is appended after all existing
ones — and uniqueness of ids in the registry is preserved. -/
theorem C8_registry_insert_no_overwrite {α : Type} (initOk : α → Bool)
    (freshUuid errId : String) (st : ServerState) (body : Body α)
    (hnodup : (st.transports.map Prod.fst).Nodup)
    (hfresh : freshUuid ∉ st.transports.map Prod.fst)
    (hinit : isInitializeRequest initOk body = true) :
    ((handlePostRequest initOk freshUuid errId st none body).1).transports
        = st.transports ++ [(freshUuid, st.nextTid)]
    ∧ (((handlePostRequest initOk freshUuid errId st none body).1).transports.map
        Prod.fst).Nodup := by
  have htr : ((handlePostRequest initOk freshUuid errId st none body).1).transports
      = st.transports ++ [(freshUuid, st.nextTid)] := by
    simp [handlePostRequest, sidLookup, truthy, hinit,
      setKey_not_mem _ _ _ hfresh]
  refine ⟨htr, ?_⟩
  rw [htr]
  simp only [List.map_append, List.map_cons, List.map_nil]
  rw [List.nodup_append]
  refine ⟨hnodup, List.nodup_singleton _, ?_⟩
  intro x hx hx1
  simp only [List.mem_singleton] at hx1
  exact hfresh (hx1 ▸ hx)

/-- Witness for C8: a registry already holding one session, extended by
an initialize request carrying a distinct fresh id. -/
theorem C8_registry_insert_no_overwrite_witness :
    (([("a", 0)] : List (String × Nat)).map Prod.fst).Nodup
    ∧ ("b" : String) ∉ ([("a", 0)] : List (String × Nat)).map Prod.fst
    ∧ ((handlePostRequest (fun b : Bool => b) "b" "e0"
        (ServerState.mk [("a", 0)] 1 (some 0) []) none (Body.single true)).1).transports
        = [("a", 0), ("b", 1)] :=
  ⟨by decide, by decide, by
    have h := (C8_registry_insert_no_overwrite (fun b : Bool => b) "b" "e0"
      (ServerState.mk [("a", 0)] 1 (some 0) []) (Body.single true)
      (by decide) (by decide) (by decide)).1
    simpa using h⟩

/-- Claim C9: closing is idempotent — running `cleanup` a second time
changes nothing over the first, removing a session id twice equals
removing it once, and removing an id absent from the registry leaves the
state exactly as it was. -/
theorem C9_close_idempotent (st : ServerState) (sid : String) :
    cleanup (cleanup st) = cleanup st
    ∧ removeSession sid (removeSession sid st) = removeSession sid st
    ∧ (st.transports.lookup sid = none → removeSession sid st = st) := by
  refine ⟨rfl, ?_, fun h => ?_⟩
  · simp [removeSession, filter_self_idem]
  · have h2 := filter_ne_of_lookup_none st.transports sid h
    unfold removeSession
    rw [h2]

/-- Witness for C9: removing an id absent from a one-session registry is
a no-op. -/
theorem C9_close_idempotent_witness :
    (ServerState.mk [("a", 0)] 1 (some 0) []).transports.lookup "b" = none
    ∧ removeSession "b" (ServerState.mk [("a", 0)] 1 (some 0) [])
        = ServerState.mk [("a", 0)] 1 (some 0) [] :=
  ⟨by decide,
   (C9_close_idempotent (ServerState.mk [("a", 0)] 1 (some 0) []) "b").2.2
     (by decide)⟩

/-- Counterexample to claim C7: starting from the empty state, create two
sessions by initialize requests, then run the shutdown cleanup.  Both
sessions are still registered afterwards (the registry is not released),
and the first session's transport (id 0) was never closed — only the
transport last connected to the SDK server (id 1) is. -/
theorem C7_cleanup_counterexample :
    (cleanup ((handlePostRequest (fun b : Bool => b) "b" "e2"
        ((handlePostRequest (fun b : Bool => b) "a" "e1"
          (ServerState.mk [] 0 none []) none (Body.single true)).1)
        none (Body.single true)).1)).transports = [("a", 0), ("b", 1)]
    ∧ (0 : Nat) ∉ (cleanup ((handlePostRequest (fun b : Bool => b) "b" "e2"
        ((handlePostRequest (fun b : Bool => b) "a" "e1"
          (ServerState.mk [] 0 none []) none (Body.single true)).1)
        none (Body.single true)).1)).closedTids := by
  decide

/-- Claim C7 as amended: on shutdown, `cleanup` cancels the tool interval
and closes the SDK server, closing exactly the transport currently bound
to it (the most recently connected one); the session registry is left
intact — no registered transport is removed. -/
theorem C7_cleanup_amended (st : ServerState) :
    (cleanup st).transports = st.transports
    ∧ (cleanup st).bound = none
    ∧ ∀ t : Nat,
        t ∈ (cleanup st).closedTids ↔ t ∈ st.closedTids ∨ st.bound = some t := by
  refine ⟨rfl, rfl, fun t => ?_⟩
  cases hb : st.bound with
  | none => simp [cleanup, hb]
  | some b => simp [cleanup, hb, mem_closeTid, eq_comm]
